import Mathlib

/-!
Verification of `cli/tools/registry/diagnostics.rs`: the publish-diagnostic
normalization adapter (`PublishDiagnostic`) and the concurrent collector
(`PublishDiagnosticsCollector`).

The adapter wraps two externally produced diagnostic payload kinds and
exposes the shared `Diagnostic` capability set; the collector is a
mutex-guarded list with a destructive drain (`print_and_error`).
-/

namespace PublishDiagnostics

/-- Modelled from the spec: `DiagnosticLevel` is defined in `crate::diagnostics`
(not part of the sources here); the spec describes it as the severity enum
with members Error and Warning. -/
inductive DiagnosticLevel where
  | error
  | warning
deriving DecidableEq

/-- Modelled from the spec: `DiagnosticSourcePos` from `crate::diagnostics`,
a raw byte offset into a parsed source (`SourcePos` constructor used here). -/
inductive DiagnosticSourcePos where
  | sourcePos (pos : Nat)
deriving DecidableEq

/-- Modelled from the spec: `DiagnosticSourceRange` from `crate::diagnostics`,
a `{start, end}` pair of positions. `end` is a Lean keyword, so the field is
named `end_`. -/
structure DiagnosticSourceRange where
  start : DiagnosticSourcePos
  end_ : DiagnosticSourcePos
deriving DecidableEq

/-- Modelled from the spec: `DiagnosticLocation` from `crate::diagnostics`,
a tagged union `File {specifier}` / `PositionInFile {specifier, source_pos}`. -/
inductive DiagnosticLocation where
  | file (specifier : String)
  | positionInFile (specifier : String) (sourcePos : DiagnosticSourcePos)
deriving DecidableEq

/-- Modelled from the spec: highlight style of a snippet, Error or Warning. -/
inductive DiagnosticSnippetHighlightStyle where
  | error
  | warning
deriving DecidableEq

/-- Modelled from the spec: `DiagnosticSnippetSource::Specifier` from
`crate::diagnostics` (a reference to a specifier's text). -/
inductive DiagnosticSnippetSource where
  | specifier (s : String)
deriving DecidableEq

/-- Modelled from the spec: `DiagnosticSnippetHighlight` from
`crate::diagnostics`: style, highlighted range and optional description. -/
structure DiagnosticSnippetHighlight where
  style : DiagnosticSnippetHighlightStyle
  range : DiagnosticSourceRange
  description : Option String
deriving DecidableEq

/-- Modelled from the spec: `DiagnosticSnippet` from `crate::diagnostics`:
a source reference and one highlight. -/
structure DiagnosticSnippet where
  source : DiagnosticSnippetSource
  highlight : DiagnosticSnippetHighlight
deriving DecidableEq

/-- Boundary model of the variant tag of `deno_graph::FastCheckDiagnostic`
(an external crate). `diagnostics.rs` distinguishes only the
`UnsupportedJavaScriptEntrypoint` variant from all remaining variants
(matched by a wildcard), so the remaining variants are represented by an
opaque tag. -/
inductive FastCheckSubReason where
  | unsupportedJavaScriptEntrypoint
  | otherReason (tag : String)
deriving DecidableEq

/-- Boundary model of a byte range as used by the external payloads
(`range.start` / `range.end`). -/
structure SourceRange where
  start : Nat
  end_ : Nat
deriving DecidableEq

/-- Boundary model of `deno_graph::FastCheckDiagnosticRange`: the code
accesses its `range` field (`range.range.start`, `range.range.end`). -/
structure FastCheckDiagnosticRange where
  range : SourceRange
deriving DecidableEq

/-- Boundary model of `deno_graph::FastCheckDiagnostic` (external crate),
capturing exactly the accessor interface `diagnostics.rs` consumes:
the variant tag, `specifier()`, `range()`, `code()`, `range_description()`,
`additional_info()` and `fix_hint()`. -/
structure FastCheckDiagnostic where
  subReason : FastCheckSubReason
  specifier : String
  range : Option FastCheckDiagnosticRange
  code : String
  rangeDescription : Option String
  additionalInfo : List String
  fixHint : String
deriving DecidableEq

/-- Modelled from the spec: `ImportMapUnfurlDiagnostic` lives in
`crate::util::import_map`, which is not among the sources here. Its single
variant shape `UnanalyzableDynamicImport { specifier, range }` is visible in
the exhaustive matches of `diagnostics.rs`. -/
inductive ImportMapUnfurlDiagnostic where
  | unanalyzableDynamicImport (specifier : String) (range : SourceRange)
deriving DecidableEq

/-- Modelled from the spec: the payload's own `code()`; the adapter only
delegates to it, so a fixed string per variant suffices. -/
def ImportMapUnfurlDiagnostic.code : ImportMapUnfurlDiagnostic → String
  | .unanalyzableDynamicImport _ _ => "unanalyzable-dynamic-import"

/-- The normalized union `PublishDiagnostic` of `diagnostics.rs`. -/
inductive PublishDiagnostic where
  | fastCheck (d : FastCheckDiagnostic)
  | importMapUnfurl (d : ImportMapUnfurlDiagnostic)
deriving DecidableEq

/-- `PublishDiagnostic::level` (diagnostics.rs lines 67-75). -/
def PublishDiagnostic.level : PublishDiagnostic → DiagnosticLevel
  | .fastCheck d =>
    match d.subReason with
    | .unsupportedJavaScriptEntrypoint => .warning
    | .otherReason _ => .error
  | .importMapUnfurl _ => .warning

/-- `PublishDiagnostic::code` (diagnostics.rs lines 77-82): delegates to the
payload's own code. -/
def PublishDiagnostic.code : PublishDiagnostic → String
  | .fastCheck d => d.code
  | .importMapUnfurl d => d.code

/-- `PublishDiagnostic::location` (diagnostics.rs lines 95-116). -/
def PublishDiagnostic.location : PublishDiagnostic → DiagnosticLocation
  | .fastCheck d =>
    match d.range with
    | some range =>
        .positionInFile d.specifier (.sourcePos range.range.start)
    | none => .file d.specifier
  | .importMapUnfurl (.unanalyzableDynamicImport specifier range) =>
      .positionInFile specifier (.sourcePos range.start)

/-- `PublishDiagnostic::snippet` (diagnostics.rs lines 118-152). -/
def PublishDiagnostic.snippet : PublishDiagnostic → Option DiagnosticSnippet
  | .fastCheck d =>
    d.range.map fun range =>
      { source := .specifier d.specifier
        highlight :=
          { style := .error
            range :=
              { start := .sourcePos range.range.start
                end_ := .sourcePos range.range.end_ }
            description := d.rangeDescription } }
  | .importMapUnfurl (.unanalyzableDynamicImport specifier range) =>
      some
        { source := .specifier specifier
          highlight :=
            { style := .warning
              range :=
                { start := .sourcePos range.start
                  end_ := .sourcePos range.end_ }
              description := some "the unanalyzable dynamic import" } }

/-- `PublishDiagnostic::hint` (diagnostics.rs lines 154-159). -/
def PublishDiagnostic.hint : PublishDiagnostic → Option String
  | .fastCheck d => some d.fixHint
  | .importMapUnfurl _ => none

/-- `PublishDiagnostic::snippet_fixed` (diagnostics.rs lines 161-163). -/
def PublishDiagnostic.snippetFixed (_ : PublishDiagnostic) :
    Option DiagnosticSnippet :=
  none

/-- `PublishDiagnostic::info` (diagnostics.rs lines 165-183). -/
def PublishDiagnostic.info : PublishDiagnostic → List String
  | .fastCheck d => d.additionalInfo
  | .importMapUnfurl (.unanalyzableDynamicImport _ _) =>
      [ "after publishing this package, imports from the local import map do not work",
        "dynamic imports that can not be analyzed at publish time will not be rewritten automatically",
        "make sure the dynamic import is resolvable at runtime without an import map" ]

/-- `PublishDiagnostic::docs_url` (diagnostics.rs lines 185-194). -/
def PublishDiagnostic.docsUrl : PublishDiagnostic → Option String
  | .fastCheck d => some ("https://jsr.io/go/" ++ d.code)
  | .importMapUnfurl (.unanalyzableDynamicImport _ _) => none

/-- The shared state of `PublishDiagnosticsCollector` (diagnostics.rs lines
26-29): the ordered sequence of collected diagnostics held behind
`Arc<Mutex<Vec<...>>>`. -/
abbrev CollectorState := List PublishDiagnostic

/-- `PublishDiagnosticsCollector::push` (diagnostics.rs lines 56-58):
append the diagnostic to the tail of the shared sequence. -/
def PublishDiagnosticsCollector.push
    (state : CollectorState) (diagnostic : PublishDiagnostic) :
    CollectorState :=
  state ++ [diagnostic]

/-- The rendering loop of `print_and_error` (diagnostics.rs lines 36-44):
for each diagnostic, in order, print its display and increment `errors`
when its level is Error. The accumulator is (output so far, errors so far),
starting at (nothing printed, 0). -/
def printAndErrorLoop (display : PublishDiagnostic → String)
    (diagnostics : List PublishDiagnostic) : List String × Nat :=
  diagnostics.foldl
    (fun acc d =>
      (acc.1 ++ [display d],
       acc.2 + if d.level = DiagnosticLevel.error then 1 else 0))
    ([], 0)

/-- Observable outcome of one `print_and_error` call: the text rendered to
the error stream (one entry per diagnostic), the returned
`Result<(), AnyError>` (the error side carries the message string), and the
shared state left behind after `take()`. -/
structure PrintAndErrorResult where
  rendered : List String
  result : Except String Unit
  state : CollectorState

/-- `PublishDiagnosticsCollector::print_and_error` (diagnostics.rs lines
32-54). `sources` is the `&dyn ParsedSourceStore` argument (of arbitrary
type `σ`) and `display` is the external rendering engine
(`Diagnostic::display`, out of scope, consuming the diagnostic and the
store). The call takes the whole sequence out of the shared state
(`Vec::take` resets it to empty), renders every diagnostic in order while
counting Error levels, and fails with "Found N problem(s)" iff the count is
nonzero. -/
def PublishDiagnosticsCollector.print_and_error {σ : Type}
    (sources : σ) (display : PublishDiagnostic → σ → String)
    (state : CollectorState) : PrintAndErrorResult :=
  let diagnostics := state
  let out := printAndErrorLoop (fun d => display d sources) diagnostics
  { rendered := out.1
    result :=
      if out.2 > 0 then
        Except.error
          ("Found " ++ toString out.2 ++ " problem" ++
            (if out.2 = 1 then "" else "s"))
      else
        Except.ok ()
    state := [] }

/-- Number of Error-level diagnostics in a sequence (the value the `errors`
counter of `print_and_error` reaches). -/
def errorCount (state : CollectorState) : Nat :=
  state.countP (fun d => decide (d.level = DiagnosticLevel.error))

/-- One serialized critical section on the collector's mutex: either a
producer's `push` of one diagnostic, or the consumer's
`lock().unwrap().take()` at the start of `print_and_error`. -/
inductive CollectorEvent where
  | push (d : PublishDiagnostic)
  | drain

/-- Trace state for the interleaving model: the shared (mutex-guarded)
sequence, and the text rendered so far, one batch per drain. -/
structure TraceState where
  shared : CollectorState
  rendered : List (List String)

/-- One atomic step of the interleaving model. A `push` event appends under
the lock; a `drain` event is `print_and_error`: it takes the whole shared
sequence, resets it to empty, and (after the lock is released) renders the
taken batch. -/
def stepEvent {σ : Type} (sources : σ)
    (display : PublishDiagnostic → σ → String)
    (st : TraceState) : CollectorEvent → TraceState
  | .push d => { st with shared := PublishDiagnosticsCollector.push st.shared d }
  | .drain =>
      let r := PublishDiagnosticsCollector.print_and_error sources display st.shared
      { shared := r.state, rendered := st.rendered ++ [r.rendered] }

/-- Run a serialized trace of critical sections from the empty collector. -/
def runTrace {σ : Type} (sources : σ)
    (display : PublishDiagnostic → σ → String)
    (events : List CollectorEvent) : TraceState :=
  events.foldl (stepEvent sources display) { shared := [], rendered := [] }

/-- The diagnostics pushed over a trace, in serialization order. -/
def pushedDiagnostics : List CollectorEvent → List PublishDiagnostic
  | [] => []
  | .push d :: rest => d :: pushedDiagnostics rest
  | .drain :: rest => pushedDiagnostics rest

/-! Sample payloads used by witness theorems. -/

/-- A concrete byte range. -/
def sampleRange : SourceRange := { start := 3, end_ := 7 }

/-- A concrete FastCheck payload with a non-entrypoint sub-reason and a
source range. -/
def sampleFastCheckOther : FastCheckDiagnostic :=
  { subReason := .otherReason "missing-explicit-type"
    specifier := "file:///a/mod.ts"
    range := some { range := sampleRange }
    code := "missing-explicit-type"
    rangeDescription := some "this symbol"
    additionalInfo := ["add a type annotation"]
    fixHint := "add an explicit type" }

/-- A concrete ImportMapUnfurl payload. -/
def sampleUnfurl : ImportMapUnfurlDiagnostic :=
  .unanalyzableDynamicImport "file:///a/main.ts" { start := 10, end_ := 20 }

/-- The snippet produced for `sampleFastCheckOther`. -/
def sampleFastCheckSnippet : DiagnosticSnippet :=
  { source := .specifier "file:///a/mod.ts"
    highlight :=
      { style := .error
        range := { start := .sourcePos 3, end_ := .sourcePos 7 }
        description := some "this symbol" } }

/-- The snippet produced for `sampleUnfurl`. -/
def sampleUnfurlSnippet : DiagnosticSnippet :=
  { source := .specifier "file:///a/main.ts"
    highlight :=
      { style := .warning
        range := { start := .sourcePos 10, end_ := .sourcePos 20 }
        description := some "the unanalyzable dynamic import" } }

/-! Characterization of the rendering loop and of `print_and_error`. -/

/-- The rendering loop, from any accumulator, appends the displays in order
and adds the number of Error-level diagnostics to the counter. -/
theorem printAndErrorLoop_foldl (display : PublishDiagnostic → String)
    (diagnostics : List PublishDiagnostic) (acc : List String × Nat) :
    diagnostics.foldl
      (fun acc d =>
        (acc.1 ++ [display d],
         acc.2 + if d.level = DiagnosticLevel.error then 1 else 0))
      acc =
      (acc.1 ++ diagnostics.map display, acc.2 + errorCount diagnostics) := by
  induction diagnostics generalizing acc with
  | nil => simp [errorCount]
  | cons d rest ih =>
      simp only [List.foldl_cons, ih, List.map_cons, errorCount,
        List.countP_cons, decide_eq_true_eq]
      refine Prod.ext ?_ ?_
      · simp
      · by_cases h : d.level = DiagnosticLevel.error
        · simp [h]; omega
        · simp [h]

/-- Closed form of `print_and_error`: it renders every collected diagnostic
in order, resets the shared state to empty, and fails with the
"Found N problem(s)" message exactly when the Error count N is nonzero. -/
theorem print_and_error_eq {σ : Type} (sources : σ)
    (display : PublishDiagnostic → σ → String) (state : CollectorState) :
    PublishDiagnosticsCollector.print_and_error sources display state =
      { rendered := state.map (fun d => display d sources)
        result :=
          if errorCount state > 0 then
            Except.error
              ("Found " ++ toString (errorCount state) ++ " problem" ++
                (if errorCount state = 1 then "" else "s"))
          else
            Except.ok ()
        state := [] } := by
  simp only [PublishDiagnosticsCollector.print_and_error, printAndErrorLoop,
    printAndErrorLoop_foldl]
  simp

/-! The claims. -/

/-- Claim C1: for every `PublishDiagnostic`, `level()` is Warning when the
diagnostic is a FastCheck payload with the UnsupportedJavaScriptEntrypoint
sub-reason, Error for every other FastCheck sub-reason, and Warning for
every ImportMapUnfurl payload. -/
theorem c1_level_policy :
    (∀ fc : FastCheckDiagnostic,
        (PublishDiagnostic.fastCheck fc).level =
          if fc.subReason = FastCheckSubReason.unsupportedJavaScriptEntrypoint
          then DiagnosticLevel.warning
          else DiagnosticLevel.error) ∧
    (∀ im : ImportMapUnfurlDiagnostic,
        (PublishDiagnostic.importMapUnfurl im).level =
          DiagnosticLevel.warning) := by
  refine ⟨fun fc => ?_, fun im => rfl⟩
  cases h : fc.subReason with
  | unsupportedJavaScriptEntrypoint => simp [PublishDiagnostic.level, h]
  | otherReason tag => simp [PublishDiagnostic.level, h]

/-- Claim C2: `print_and_error` renders every pushed diagnostic in insertion
order, returns success iff zero of them have Error level, and when `E > 0`
of them have Error level it fails with the message "Found E problem" for
`E = 1` and "Found E problems" otherwise. -/
theorem c2_print_and_error_contract {σ : Type} (sources : σ)
    (display : PublishDiagnostic → σ → String) (state : CollectorState) :
    (PublishDiagnosticsCollector.print_and_error sources display state).rendered
        = state.map (fun d => display d sources) ∧
    ((PublishDiagnosticsCollector.print_and_error sources display state).result
        = Except.ok () ↔ errorCount state = 0) ∧
    (0 < errorCount state →
      (PublishDiagnosticsCollector.print_and_error sources display state).result
        = Except.error
            ("Found " ++ toString (errorCount state) ++ " problem" ++
              (if errorCount state = 1 then "" else "s"))) := by
  rw [print_and_error_eq]
  refine ⟨rfl, ?_, fun h => ?_⟩
  · by_cases h : errorCount state > 0
    · simp only [h, if_pos]
      constructor
      · intro hcontra
        exact absurd hcontra (by simp)
      · intro h0
        omega
    · have h0 : errorCount state = 0 := by omega
      simp [h0]
  · simp only [gt_iff_lt, h, if_pos]

/-- Witness for C2 at a concrete one-element collector state holding one
Error-level diagnostic. -/
theorem c2_witness :
    0 < errorCount [PublishDiagnostic.fastCheck sampleFastCheckOther] ∧
    (PublishDiagnosticsCollector.print_and_error () (fun _ _ => "out")
        [PublishDiagnostic.fastCheck sampleFastCheckOther]).result
      = Except.error "Found 1 problem" := by
  refine ⟨by decide, ?_⟩
  have h := (c2_print_and_error_contract () (fun _ _ => "out")
      [PublishDiagnostic.fastCheck sampleFastCheckOther]).2.2 (by decide)
  exact h

/-- Claim C3: `print_and_error` leaves the collector empty, so a second call
with no intervening pushes observes an empty sequence, renders nothing, and
returns success — whatever the first call's outcome and whatever store and
renderer either call uses. -/
theorem c3_drain_idempotent_empty {σ τ : Type}
    (sources₁ : σ) (display₁ : PublishDiagnostic → σ → String)
    (sources₂ : τ) (display₂ : PublishDiagnostic → τ → String)
    (state : CollectorState) :
    (PublishDiagnosticsCollector.print_and_error sources₁ display₁ state).state
        = [] ∧
    (PublishDiagnosticsCollector.print_and_error sources₂ display₂
        ((PublishDiagnosticsCollector.print_and_error sources₁ display₁
            state).state)).rendered = [] ∧
    (PublishDiagnosticsCollector.print_and_error sources₂ display₂
        ((PublishDiagnosticsCollector.print_and_error sources₁ display₁
            state).state)).result = Except.ok () :=
  ⟨rfl, rfl, rfl⟩

/-- Claim C4: `location()` is `PositionInFile` at the payload's range start
with the payload's specifier when the FastCheck payload carries a range,
`File` with only the specifier when it carries none, and always
`PositionInFile` for an ImportMapUnfurl payload. -/
theorem c4_location_policy :
    (∀ (fc : FastCheckDiagnostic) (r : FastCheckDiagnosticRange),
        fc.range = some r →
        (PublishDiagnostic.fastCheck fc).location =
          DiagnosticLocation.positionInFile fc.specifier
            (DiagnosticSourcePos.sourcePos r.range.start)) ∧
    (∀ fc : FastCheckDiagnostic,
        fc.range = none →
        (PublishDiagnostic.fastCheck fc).location =
          DiagnosticLocation.file fc.specifier) ∧
    (∀ (specifier : String) (r : SourceRange),
        (PublishDiagnostic.importMapUnfurl
            (ImportMapUnfurlDiagnostic.unanalyzableDynamicImport specifier
              r)).location =
          DiagnosticLocation.positionInFile specifier
            (DiagnosticSourcePos.sourcePos r.start)) := by
  refine ⟨fun fc r h => ?_, fun fc h => ?_, fun specifier r => rfl⟩
  · simp [PublishDiagnostic.location, h]
  · simp [PublishDiagnostic.location, h]

/-- Witness for C4 at a concrete FastCheck payload carrying a range. -/
theorem c4_witness :
    sampleFastCheckOther.range = some { range := sampleRange } ∧
    (PublishDiagnostic.fastCheck sampleFastCheckOther).location
      = DiagnosticLocation.positionInFile "file:///a/mod.ts"
          (DiagnosticSourcePos.sourcePos 3) :=
  ⟨rfl, c4_location_policy.1 sampleFastCheckOther { range := sampleRange } rfl⟩

/-- Claim C5: `snippet()` is present iff the payload has a source range, and
when present its highlighted range equals the payload's original range
exactly; a FastCheck snippet has highlight style Error and the payload's own
range description; an ImportMapUnfurl snippet has highlight style Warning
and the fixed description "the unanalyzable dynamic import". -/
theorem c5_snippet_policy :
    (∀ fc : FastCheckDiagnostic,
        (PublishDiagnostic.fastCheck fc).snippet.isSome = fc.range.isSome) ∧
    (∀ (fc : FastCheckDiagnostic) (r : FastCheckDiagnosticRange)
        (snip : DiagnosticSnippet),
        fc.range = some r →
        (PublishDiagnostic.fastCheck fc).snippet = some snip →
        snip.highlight.range.start
            = DiagnosticSourcePos.sourcePos r.range.start ∧
        snip.highlight.range.end_
            = DiagnosticSourcePos.sourcePos r.range.end_ ∧
        snip.highlight.style = DiagnosticSnippetHighlightStyle.error ∧
        snip.highlight.description = fc.rangeDescription) ∧
    (∀ (specifier : String) (r : SourceRange),
        ((PublishDiagnostic.importMapUnfurl
            (ImportMapUnfurlDiagnostic.unanalyzableDynamicImport specifier
              r)).snippet).isSome = true) ∧
    (∀ (specifier : String) (r : SourceRange) (snip : DiagnosticSnippet),
        (PublishDiagnostic.importMapUnfurl
            (ImportMapUnfurlDiagnostic.unanalyzableDynamicImport specifier
              r)).snippet = some snip →
        snip.highlight.range.start = DiagnosticSourcePos.sourcePos r.start ∧
        snip.highlight.range.end_ = DiagnosticSourcePos.sourcePos r.end_ ∧
        snip.highlight.style = DiagnosticSnippetHighlightStyle.warning ∧
        snip.highlight.description = some "the unanalyzable dynamic import")
    := by
  refine ⟨fun fc => ?_, fun fc r snip hr hs => ?_, fun specifier r => rfl,
    fun specifier r snip hs => ?_⟩
  · cases h : fc.range <;> simp [PublishDiagnostic.snippet, h]
  · rw [PublishDiagnostic.snippet, hr] at hs
    simp only [Option.map_some', Option.some.injEq] at hs
    subst hs
    exact ⟨rfl, rfl, rfl, rfl⟩
  · rw [PublishDiagnostic.snippet] at hs
    simp only [Option.some.injEq] at hs
    subst hs
    exact ⟨rfl, rfl, rfl, rfl⟩

/-- Witness for C5 at a concrete FastCheck payload with range 3..7. -/
theorem c5_witness :
    sampleFastCheckOther.range = some { range := sampleRange } ∧
    (PublishDiagnostic.fastCheck sampleFastCheckOther).snippet
        = some sampleFastCheckSnippet ∧
    (sampleFastCheckSnippet.highlight.range.start
          = DiagnosticSourcePos.sourcePos 3 ∧
      sampleFastCheckSnippet.highlight.range.end_
          = DiagnosticSourcePos.sourcePos 7 ∧
      sampleFastCheckSnippet.highlight.style
          = DiagnosticSnippetHighlightStyle.error ∧
      sampleFastCheckSnippet.highlight.description = some "this symbol") :=
  ⟨rfl, rfl,
    c5_snippet_policy.2.1 sampleFastCheckOther { range := sampleRange }
      sampleFastCheckSnippet rfl rfl⟩

/-- Pushes distribute over trace concatenation. -/
theorem pushedDiagnostics_append (es₁ es₂ : List CollectorEvent) :
    pushedDiagnostics (es₁ ++ es₂) =
      pushedDiagnostics es₁ ++ pushedDiagnostics es₂ := by
  induction es₁ with
  | nil => rfl
  | cons e rest ih => cases e <;> simp [pushedDiagnostics, ih]

/-- A trace made only of pushes pushes exactly its diagnostics. -/
theorem pushedDiagnostics_map_push (ps : List PublishDiagnostic) :
    pushedDiagnostics (ps.map CollectorEvent.push) = ps := by
  induction ps with
  | nil => rfl
  | cons d rest ih => simp [pushedDiagnostics, ih]

/-- Invariant of the interleaving model: from any trace state, what the
drains have rendered plus what is still pending accounts for exactly the
starting contents plus every diagnostic pushed by the trace, once each. -/
theorem runTrace_accounting {σ : Type} (sources : σ)
    (display : PublishDiagnostic → σ → String)
    (events : List CollectorEvent) (st : TraceState) :
    ((events.foldl (stepEvent sources display) st).rendered).flatten ++
        ((events.foldl (stepEvent sources display) st).shared).map
          (fun d => display d sources)
      = st.rendered.flatten ++
          st.shared.map (fun d => display d sources) ++
          (pushedDiagnostics events).map (fun d => display d sources) := by
  induction events generalizing st with
  | nil => simp [pushedDiagnostics]
  | cons e rest ih =>
      cases e with
      | push d =>
          rw [List.foldl_cons, ih]
          simp [stepEvent, PublishDiagnosticsCollector.push,
            pushedDiagnostics, List.append_assoc]
      | drain =>
          rw [List.foldl_cons, ih]
          simp [stepEvent, pushedDiagnostics, print_and_error_eq,
            List.append_assoc]

/-- Claim C6: over any serialized interleaving of producer pushes and drains
starting from the empty collector, each drain takes the whole current
sequence and resets the shared state to empty in one atomic step, so no
diagnostic is ever rendered twice and no push is lost: the rendered batches
followed by the still-pending diagnostics are exactly the pushed
diagnostics, rendered once each; in particular, when one drain follows all
pushes, the total rendered output is exactly one entry per push made before
the drain and the shared state is left empty. -/
theorem c6_drain_atomic_exclusive {σ : Type} (sources : σ)
    (display : PublishDiagnostic → σ → String) :
    (∀ events : List CollectorEvent,
        ((runTrace sources display events).rendered).flatten ++
            ((runTrace sources display events).shared).map
              (fun d => display d sources)
          = (pushedDiagnostics events).map (fun d => display d sources)) ∧
    (∀ ps : List PublishDiagnostic,
        ((runTrace sources display
              (ps.map CollectorEvent.push ++
                [CollectorEvent.drain])).rendered).flatten
            = ps.map (fun d => display d sources) ∧
        (runTrace sources display
            (ps.map CollectorEvent.push ++
              [CollectorEvent.drain])).shared = []) := by
  have hrun : ∀ events : List CollectorEvent,
      ((runTrace sources display events).rendered).flatten ++
          ((runTrace sources display events).shared).map
            (fun d => display d sources)
        = (pushedDiagnostics events).map (fun d => display d sources) := by
    intro events
    have h := runTrace_accounting sources display events
      { shared := [], rendered := [] }
    simpa [runTrace] using h
  refine ⟨hrun, fun ps => ?_⟩
  have hshared : (runTrace sources display
      (ps.map CollectorEvent.push ++ [CollectorEvent.drain])).shared = [] := by
    rw [runTrace, List.foldl_append]
    rfl
  refine ⟨?_, hshared⟩
  have h := hrun (ps.map CollectorEvent.push ++ [CollectorEvent.drain])
  rw [hshared] at h
  simpa [pushedDiagnostics_append, pushedDiagnostics_map_push,
    pushedDiagnostics] using h

/-- Claim C7: `docs_url()` is the fixed base address "https://jsr.io/go/"
followed by the diagnostic's code for a FastCheck payload, and is never
present for an ImportMapUnfurl payload. -/
theorem c7_docs_url_policy :
    (∀ fc : FastCheckDiagnostic,
        (PublishDiagnostic.fastCheck fc).docsUrl =
          some ("https://jsr.io/go/" ++
            (PublishDiagnostic.fastCheck fc).code)) ∧
    (∀ im : ImportMapUnfurlDiagnostic,
        (PublishDiagnostic.importMapUnfurl im).docsUrl = none) := by
  refine ⟨fun fc => rfl, fun im => ?_⟩
  cases im
  rfl

/-- Claim C8: `info()` is the FastCheck payload's own list of additional
notes, and for an ImportMapUnfurl payload it is the fixed three-line
guidance text about import-map limitations at publish time, independent of
the payload. -/
theorem c8_info_policy :
    (∀ fc : FastCheckDiagnostic,
        (PublishDiagnostic.fastCheck fc).info = fc.additionalInfo) ∧
    (∀ im : ImportMapUnfurlDiagnostic,
        (PublishDiagnostic.importMapUnfurl im).info =
          [ "after publishing this package, imports from the local import map do not work",
            "dynamic imports that can not be analyzed at publish time will not be rewritten automatically",
            "make sure the dynamic import is resolvable at runtime without an import map" ]) ∧
    (∀ im₁ im₂ : ImportMapUnfurlDiagnostic,
        (PublishDiagnostic.importMapUnfurl im₁).info =
          (PublishDiagnostic.importMapUnfurl im₂).info) := by
  refine ⟨fun fc => rfl, fun im => ?_, fun im₁ im₂ => ?_⟩
  · cases im
    rfl
  · cases im₁
    cases im₂
    rfl

/-- Claim C9: `snippet()` is `some` exactly when `location()` is
`PositionInFile`, and then the snippet's highlight range starts at the
location's source position and the snippet's source specifier is the
location's specifier. -/
theorem c9_snippet_location_consistent (d : PublishDiagnostic) :
    (d.snippet.isSome ↔
      ∃ s p, d.location = DiagnosticLocation.positionInFile s p) ∧
    (∀ (snip : DiagnosticSnippet) (s : String) (p : DiagnosticSourcePos),
        d.snippet = some snip →
        d.location = DiagnosticLocation.positionInFile s p →
        snip.highlight.range.start = p ∧
        snip.source = DiagnosticSnippetSource.specifier s) := by
  cases d with
  | fastCheck fc =>
      cases h : fc.range with
      | none =>
          constructor
          · simp [PublishDiagnostic.snippet, PublishDiagnostic.location, h]
          · intro snip s p hs hl
            rw [PublishDiagnostic.snippet, h] at hs
            simp at hs
      | some r =>
          constructor
          · simp [PublishDiagnostic.snippet, PublishDiagnostic.location, h]
          · intro snip s p hs hl
            rw [PublishDiagnostic.snippet, h] at hs
            rw [PublishDiagnostic.location, h] at hl
            simp only [Option.map_some', Option.some.injEq] at hs
            simp only [DiagnosticLocation.positionInFile.injEq] at hl
            subst hs
            exact ⟨hl.2, by rw [hl.1]⟩
  | importMapUnfurl im =>
      cases im with
      | unanalyzableDynamicImport specifier r =>
          constructor
          · simp [PublishDiagnostic.snippet, PublishDiagnostic.location]
          · intro snip s p hs hl
            rw [PublishDiagnostic.snippet] at hs
            rw [PublishDiagnostic.location] at hl
            simp only [Option.some.injEq] at hs
            simp only [DiagnosticLocation.positionInFile.injEq] at hl
            subst hs
            exact ⟨hl.2, by rw [hl.1]⟩

/-- Witness for C9 at a concrete ImportMapUnfurl diagnostic. -/
theorem c9_witness :
    (PublishDiagnostic.importMapUnfurl sampleUnfurl).snippet
        = some sampleUnfurlSnippet ∧
    (PublishDiagnostic.importMapUnfurl sampleUnfurl).location
        = DiagnosticLocation.positionInFile "file:///a/main.ts"
            (DiagnosticSourcePos.sourcePos 10) ∧
    sampleUnfurlSnippet.highlight.range.start
        = DiagnosticSourcePos.sourcePos 10 ∧
    sampleUnfurlSnippet.source
        = DiagnosticSnippetSource.specifier "file:///a/main.ts" :=
  ⟨rfl, rfl,
    (c9_snippet_location_consistent
        (PublishDiagnostic.importMapUnfurl sampleUnfurl)).2
      sampleUnfurlSnippet "file:///a/main.ts"
      (DiagnosticSourcePos.sourcePos 10) rfl rfl⟩

/-- Claim C10: the returned result of `print_and_error` (including the
reported count in its message) and the state it leaves behind are
independent of the source store and of the renderer: the decision is
computed only from the levels of the collected diagnostics, the store being
used only to render text. -/
theorem c10_result_store_independent {σ₁ σ₂ : Type}
    (sources₁ : σ₁) (display₁ : PublishDiagnostic → σ₁ → String)
    (sources₂ : σ₂) (display₂ : PublishDiagnostic → σ₂ → String)
    (state : CollectorState) :
    (PublishDiagnosticsCollector.print_and_error sources₁ display₁
        state).result
      = (PublishDiagnosticsCollector.print_and_error sources₂ display₂
          state).result ∧
    (PublishDiagnosticsCollector.print_and_error sources₁ display₁
        state).state
      = (PublishDiagnosticsCollector.print_and_error sources₂ display₂
          state).state := by
  rw [print_and_error_eq, print_and_error_eq]
  exact ⟨rfl, rfl⟩

end PublishDiagnostics
